import Mathlib

/-!
Shallow embedding of the jobpilot LinkedIn scraper
(`src/jobpilot/models/location.py`, `src/jobpilot/models/job.py`,
`src/jobpilot/models/company.py`, `src/jobpilot/scrapers/linkedin.py`)
together with theorems settling the specification claims about it.
-/

deriving instance DecidableEq for Except

namespace JobPilot

/-- The `Country` enum of `models/location.py`. -/
inductive Country
  | AUSTRIA | BAHRAIN | BELGIUM | BRAZIL | CANADA | CHILE | CHINA | COLOMBIA
  | COSTARICA | CZECHREPUBLIC | DENMARK | ECUADOR | EGYPT | FINLAND | FRANCE
  | GERMANY | GREECE | HONGKONG | HUNGARY | INDIA | INDONESIA | IRELAND
  | ISRAEL | ITALY | JAPAN | KUWAIT | LUXEMBOURG | MALAYSIA | MEXICO
  | MOROCCO | NETHERLANDS | NEWZEALAND | NIGERIA | NORWAY | OMAN | PAKISTAN
  | PANAMA | PERU | PHILIPPINES | POLAND | PORTUGAL | QATAR | ROMANIA
  | SAUDIARABIA | SINGAPORE | SOUTHAFRICA | SOUTHKOREA | SPAIN | SWEDEN
  | SWITZERLAND | TAIWAN | THAILAND | TURKEY | UKRAINE | UNITEDARABEMIRATES
  | UK | USA | URUGUAY | VENEZUELA | VIETNAM | WORLDWIDE
deriving DecidableEq, Repr

/-- The alias tuple attached to each `Country` enum member. -/
def Country.aliases : Country → List String
  | .AUSTRIA => ["austria", "at"]
  | .BAHRAIN => ["bahrain", "bh"]
  | .BELGIUM => ["belgium", "be"]
  | .BRAZIL => ["brazil", "br"]
  | .CANADA => ["canada", "ca"]
  | .CHILE => ["chile", "cl"]
  | .CHINA => ["china", "cn"]
  | .COLOMBIA => ["colombia", "col"]
  | .COSTARICA => ["costa rica", "cr"]
  | .CZECHREPUBLIC => ["czech republic", "cz"]
  | .DENMARK => ["denmark", "dk"]
  | .ECUADOR => ["ecuador", "ec"]
  | .EGYPT => ["egypt", "eg"]
  | .FINLAND => ["finland", "fi"]
  | .FRANCE => ["france", "fr"]
  | .GERMANY => ["germany", "de"]
  | .GREECE => ["greece", "gr"]
  | .HONGKONG => ["hong kong", "hk"]
  | .HUNGARY => ["hungary", "hu"]
  | .INDIA => ["india", "in"]
  | .INDONESIA => ["indonesia", "id"]
  | .IRELAND => ["ireland", "ie"]
  | .ISRAEL => ["israel", "il"]
  | .ITALY => ["italy", "it"]
  | .JAPAN => ["japan", "jp"]
  | .KUWAIT => ["kuwait", "kw"]
  | .LUXEMBOURG => ["luxembourg", "lu"]
  | .MALAYSIA => ["malaysia", "my"]
  | .MEXICO => ["mexico", "mx"]
  | .MOROCCO => ["morocco", "ma"]
  | .NETHERLANDS => ["netherlands", "nl"]
  | .NEWZEALAND => ["new zealand", "nz"]
  | .NIGERIA => ["nigeria", "ng"]
  | .NORWAY => ["norway", "no"]
  | .OMAN => ["oman", "om"]
  | .PAKISTAN => ["pakistan", "pk"]
  | .PANAMA => ["panama", "pa"]
  | .PERU => ["peru", "pe"]
  | .PHILIPPINES => ["philippines", "ph"]
  | .POLAND => ["poland", "pl"]
  | .PORTUGAL => ["portugal", "pt"]
  | .QATAR => ["qatar", "qa"]
  | .ROMANIA => ["romania", "ro"]
  | .SAUDIARABIA => ["saudi arabia", "sa"]
  | .SINGAPORE => ["singapore", "sg"]
  | .SOUTHAFRICA => ["south africa", "za"]
  | .SOUTHKOREA => ["south korea", "kr"]
  | .SPAIN => ["spain", "es"]
  | .SWEDEN => ["sweden", "se"]
  | .SWITZERLAND => ["switzerland", "ch"]
  | .TAIWAN => ["taiwan", "tw"]
  | .THAILAND => ["thailand", "th"]
  | .TURKEY => ["turkey", "tr"]
  | .UKRAINE => ["ukraine", "ua"]
  | .UNITEDARABEMIRATES => ["united arab emirates", "ae"]
  | .UK => ["united kingdom", "uk"]
  | .USA => ["united states", "us", "usa"]
  | .URUGUAY => ["uruguay", "uy"]
  | .VENEZUELA => ["venezuela", "ve"]
  | .VIETNAM => ["vietnam", "vn"]
  | .WORLDWIDE => ["worldwide", "ww"]

/-- The members of `Country`, in declaration order. -/
def Country.all : List Country :=
  [.AUSTRIA, .BAHRAIN, .BELGIUM, .BRAZIL, .CANADA, .CHILE, .CHINA, .COLOMBIA,
   .COSTARICA, .CZECHREPUBLIC, .DENMARK, .ECUADOR, .EGYPT, .FINLAND, .FRANCE,
   .GERMANY, .GREECE, .HONGKONG, .HUNGARY, .INDIA, .INDONESIA, .IRELAND,
   .ISRAEL, .ITALY, .JAPAN, .KUWAIT, .LUXEMBOURG, .MALAYSIA, .MEXICO,
   .MOROCCO, .NETHERLANDS, .NEWZEALAND, .NIGERIA, .NORWAY, .OMAN, .PAKISTAN,
   .PANAMA, .PERU, .PHILIPPINES, .POLAND, .PORTUGAL, .QATAR, .ROMANIA,
   .SAUDIARABIA, .SINGAPORE, .SOUTHAFRICA, .SOUTHKOREA, .SPAIN, .SWEDEN,
   .SWITZERLAND, .TAIWAN, .THAILAND, .TURKEY, .UKRAINE, .UNITEDARABEMIRATES,
   .UK, .USA, .URUGUAY, .VENEZUELA, .VIETNAM, .WORLDWIDE]

/-- The `_ALIAS_TO_COUNTRY` dict, as its insertion sequence of (alias, country)
pairs: the module-level loop inserts countries in declaration order and, for
each country, its aliases in tuple order. -/
def countryAliasPairs : List (String × Country) :=
  Country.all.flatMap (fun c => c.aliases.map (fun a => (a, c)))

/-- Lookup in `_ALIAS_TO_COUNTRY`; with dict semantics the last insertion of a
key wins, hence the lookup over the reversed insertion sequence. -/
def aliasToCountry (a : String) : Option Country :=
  (countryAliasPairs.reverse.lookup a)

/-- `Country.from_alias`: returns the canonical member for a known alias and
raises `ValueError` (modelled as `Except.error`) otherwise. -/
def Country.from_alias (a : String) : Except String Country :=
  match aliasToCountry a with
  | some c => Except.ok c
  | none => Except.error ("country not found; please open an issue")

/-- The `EmploymentType` enum of `models/job.py`. -/
inductive EmploymentType
  | FULLTIME | PARTTIME | INTERNSHIP | PER_DIEM | NIGHTS | OTHER | SUMMER
  | VOLUNTEER | SELFEMPLOYED
deriving DecidableEq, Repr

/-- The alias tuple attached to each `EmploymentType` enum member. -/
def EmploymentType.aliases : EmploymentType → List String
  | .FULLTIME =>
    ["fulltime", "períodointegral", "estágio/trainee", "cunormăîntreagă",
     "tiempocompleto", "vollzeit", "voltijds", "tempointegral", "全职",
     "plnýúvazek", "fuldtid", "دوامكامل", "kokopäivätyö", "tempsplein",
     "vollzeit", "πλήρηςαπασχόληση", "teljesmunkaidő", "tempopieno",
     "tempsplein", "heltid", "jornadacompleta", "pełnyetat", "정규직", "100%",
     "全職", "งานประจำ", "tamzamanli", "повназайнятість", "toànthờigian"]
  | .PARTTIME => ["parttime", "teilzeit", "částečnýúvazek", "deltid"]
  | .INTERNSHIP =>
    ["internship", "prácticas", "ojt(onthejobtraining)", "praktikum",
     "praktik"]
  | .PER_DIEM => ["perdiem"]
  | .NIGHTS => ["nights"]
  | .OTHER => ["other"]
  | .SUMMER => ["summer"]
  | .VOLUNTEER => ["volunteer"]
  | .SELFEMPLOYED => ["contract"]

/-- The members of `EmploymentType`, in declaration order. -/
def EmploymentType.all : List EmploymentType :=
  [.FULLTIME, .PARTTIME, .INTERNSHIP, .PER_DIEM, .NIGHTS, .OTHER, .SUMMER,
   .VOLUNTEER, .SELFEMPLOYED]

/-- The `_ALIAS_TO_EMPLOYMENT_TYPE` dict, as its insertion sequence. -/
def employmentAliasPairs : List (String × EmploymentType) :=
  EmploymentType.all.flatMap (fun e => e.aliases.map (fun a => (a, e)))

/-- Lookup in `_ALIAS_TO_EMPLOYMENT_TYPE` (last insertion of a key wins). -/
def aliasToEmploymentType (a : String) : Option EmploymentType :=
  (employmentAliasPairs.reverse.lookup a)

/-- `EmploymentType.from_alias`: canonical member for a known alias, else a
`ValueError`. -/
def EmploymentType.from_alias (a : String) : Except String EmploymentType :=
  match aliasToEmploymentType a with
  | some e => Except.ok e
  | none => Except.error ("employment_type not found; please open an issue")

/-- `Company` (`models/company.py`): pydantic model with `name` and `link`. -/
structure Company where
  name : String
  link : String
deriving DecidableEq, Repr

/-- `Location` (`models/location.py`). -/
structure Location where
  country : Country
  city : Option String
  region : Option String
deriving DecidableEq, Repr

/-- `JobDetails` (`models/job.py`): all fields optional, default `None`. -/
structure JobDetails where
  description : Option String := none
  employment_type : Option EmploymentType := none
  seniority_level : Option String := none
  job_function : Option String := none
  industries : Option String := none
deriving DecidableEq, Repr

/-- `Job` (`models/job.py`): pydantic model; `details` defaults to `None`. -/
structure Job where
  title : String
  link : String
  location : Location
  company : Company
  details : Option JobDetails := none
deriving DecidableEq, Repr

/-- Pydantic `BaseModel.__eq__` on `Job`: field-by-field comparison. `Job`
overrides only `__hash__`, not `__eq__`. -/
def Job.pyEq (a b : Job) : Bool :=
  a.title == b.title && a.link == b.link && a.location == b.location &&
    a.company == b.company && a.details == b.details

/-- `Job.__hash__` hashes exactly `self.link`: the key fed to `hash`. -/
def Job.pyHashKey (j : Job) : String :=
  j.link

/-! ## String primitives used by the scraper (Python `str` methods) -/

/-- Python `str.strip()`: drop leading and trailing whitespace. -/
def pyStrip (s : String) : String :=
  String.mk
    (((s.data.dropWhile Char.isWhitespace).reverse.dropWhile
        Char.isWhitespace).reverse)

/-- Python `str.lower()` (restricted to the ASCII case map). -/
def pyLower (s : String) : String :=
  String.mk (s.data.map Char.toLower)

/-- Python `str.isupper()` (ASCII cased characters): at least one cased
character and no lowercase character. -/
def pyIsUpper (s : String) : Bool :=
  s.data.any (fun c => c.isUpper || c.isLower) && s.data.all (fun c => !c.isLower)

/-- Python `s.replace(str(c), "")`: delete every occurrence of the character. -/
def pyDeleteChar (c : Char) (s : String) : String :=
  String.mk (s.data.filter (fun x => x != c))

/-- `s.split(sep)[0]` for a single-character separator: the segment before the
first occurrence of `c` (the whole string when `c` is absent). -/
def firstSegment (c : Char) (s : String) : String :=
  String.mk (s.data.takeWhile (fun x => x ≠ c))

/-- `s.split(sep)[-1]` for a single-character separator: the segment after the
last occurrence of `c` (the whole string when `c` is absent). -/
def lastSegment (c : Char) (s : String) : String :=
  String.mk ((s.data.reverse.takeWhile (fun x => x ≠ c)).reverse)

/-- Python `str.split(sep)` for a one-character separator, over the character
list: `"".split(sep)` is `[""]`, and adjacent separators yield empty
segments. -/
def splitOnChar (c : Char) : List Char → List (List Char)
  | [] => [[]]
  | x :: xs =>
    if x = c then [] :: splitOnChar c xs
    else
      match splitOnChar c xs with
      | [] => [[x]]
      | seg :: rest => (x :: seg) :: rest

/-- Python `str.split(sep)` for a one-character separator. -/
def pySplit (c : Char) (s : String) : List String :=
  (splitOnChar c s.data).map String.mk

/-! ## Parsing (`LinkedInScraper.parse_job` / `parse_jobs` /
`parse_job_details`)

A listing-page fragment (`div.base-card`) is abstracted to the pieces
`parse_job` reads from it: the optional title anchor (`a.base-card__full-link`)
with its text and optional `href`, the optional company subtitle `h4` holding
an optional nested anchor, and the optional location span's text. A detail
page is abstracted to its optional description block text and the sequence of
criteria items, each a pair of `h3` label text (already whitespace-collapsed
by `get_text(strip=True)`) and `span` text. -/

/-- An anchor node: its text and optional `href` attribute. -/
structure RawLink where
  text : String
  href : Option String
deriving DecidableEq, Repr

/-- A listing-page job fragment, reduced to what `parse_job` reads. -/
structure RawJob where
  title_section : Option RawLink
  company_subtitle : Option (Option RawLink)
  location_section : Option String
deriving DecidableEq, Repr

/-- Errors out of `parse_job`: a deliberately raised `LinkedInError`, or the
`AttributeError` crash from calling `.find`/`.text` on a missing node. -/
inductive ParseErr
  | linkedinError (msg : String)
  | attributeError
deriving DecidableEq, Repr

/-- Base URL constant `LINKEDIN_JOB_URL` of `LinkedInScraper`. -/
def LINKEDIN_JOB_URL : String :=
  "https://www.linkedin.com/jobs/view"

/-- `LinkedInScraper.parse_job`, line for line: title anchor with `href`
required (else `LinkedInError`), title lowercased and stripped, job id taken
as the last `-`-segment of the `href` cut at the first `?`, link rebuilt from
`LINKEDIN_JOB_URL`, company anchor with `href` required, and the location text
split on `,` with the trailing parts giving country / region / city; an
unknown country alias is caught and the string kept as the city, the country
staying at its `WORLDWIDE` initial value. -/
def parse_job (raw : RawJob) : Except ParseErr Job :=
  match raw.title_section with
  | none => Except.error (ParseErr.linkedinError "Job title or link not found")
  | some ts =>
    match ts.href with
    | none => Except.error (ParseErr.linkedinError "Job title or link not found")
    | some href =>
      let title := pyLower (pyStrip ts.text)
      let job_id := lastSegment '-' (firstSegment '?' href)
      let link := LINKEDIN_JOB_URL ++ "/" ++ job_id
      match raw.company_subtitle with
      | none => Except.error ParseErr.attributeError
      | some none =>
        Except.error (ParseErr.linkedinError "company name or link not found")
      | some (some cs) =>
        match cs.href with
        | none =>
          Except.error (ParseErr.linkedinError "company name or link not found")
        | some company_link =>
          let company : Company := ⟨pyLower (pyStrip cs.text), company_link⟩
          match raw.location_section with
          | none => Except.error ParseErr.attributeError
          | some location_text =>
            let rev := (pySplit ',' location_text).reverse
            let possible_country := pyLower (pyStrip (rev.headD ""))
            let cc : Country × Option String :=
              match aliasToCountry possible_country with
              | some c => (c, none)
              | none => (Country.WORLDWIDE, some possible_country)
            let region :=
              match rev.get? 1 with
              | some r =>
                let r := pyStrip r
                some (if pyIsUpper r then r else pyLower r)
              | none => none
            let city :=
              match rev.get? 2 with
              | some c => some (pyLower (pyStrip c))
              | none => cc.2
            Except.ok
              { title := title, link := link,
                location := ⟨cc.1, city, region⟩, company := company }

/-- `LinkedInScraper.parse_jobs`: parse every `div.base-card` fragment in
markup order (the fragments are evaluated left to right and the first
`parse_job` failure escapes the comprehension). -/
def parse_jobs : List RawJob → Except ParseErr (List Job)
  | [] => Except.ok []
  | r :: rest =>
    match parse_job r with
    | Except.error e => Except.error e
    | Except.ok j =>
      match parse_jobs rest with
      | Except.error e => Except.error e
      | Except.ok js => Except.ok (j :: js)

/-- A detail page, reduced to what `parse_job_details` reads. -/
structure RawDetailPage where
  description_section : Option String
  criteria : List (String × String)
deriving DecidableEq, Repr

/-- Errors out of `parse_job_details`: the `LinkedInBadPageError` for a
missing description block, or the `ValueError` escaping
`EmploymentType.from_alias`. -/
inductive DetailParseErr
  | badPage
  | valueError (msg : String)
deriving DecidableEq, Repr

/-- One iteration of the criteria loop in `parse_job_details`, updating the
accumulated fields according to the matched label. -/
def applyCriteria (st : JobDetails) (c : String × String) :
    Except DetailParseErr JobDetails :=
  let v := pyLower (pyStrip c.2)
  if c.1 = "Seniority level" then
    Except.ok { st with seniority_level := some (pyDeleteChar ' ' (pyDeleteChar '-' v)) }
  else if c.1 = "Employment type" then
    match EmploymentType.from_alias (pyDeleteChar ' ' (pyDeleteChar '-' v)) with
    | Except.ok et => Except.ok { st with employment_type := some et }
    | Except.error m => Except.error (DetailParseErr.valueError m)
  else if c.1 = "Job function" then
    Except.ok { st with job_function := some v }
  else if c.1 = "Industries" then
    Except.ok { st with industries := some v }
  else
    Except.ok st

/-- `LinkedInScraper.parse_job_details`: a missing description block raises
`LinkedInBadPageError`; otherwise the criteria items are folded over the
initially-`None` fields. -/
def parse_job_details (raw : RawDetailPage) : Except DetailParseErr JobDetails :=
  match raw.description_section with
  | none => Except.error DetailParseErr.badPage
  | some d =>
    raw.criteria.foldlM applyCriteria
      { description := some (pyStrip d) }

/-! ## Scheduling and aggregation (`LinkedInScraper.scrape`) -/

/-- `START_LIMIT`: LinkedIn accepts at most 1000 as the `start` parameter. -/
def START_LIMIT : Nat := 1000

/-- `RESULTS_PER_PAGE`: 25 results per listing page. -/
def RESULTS_PER_PAGE : Nat := 25

/-- `MAX_RETRIES`: the retry loops run `range(1, MAX_RETRIES + 1)`. -/
def MAX_RETRIES : Nat := 5

/-- The `start` values `scrape` creates one `get_jobs` task for:
`range(0, limit, RESULTS_PER_PAGE)` with `limit = min(input.limit,
START_LIMIT)`. -/
def scheduledStarts (inputLimit : Nat) : List Nat :=
  List.range' 0 ((min inputLimit START_LIMIT + (RESULTS_PER_PAGE - 1)) / RESULTS_PER_PAGE)
    RESULTS_PER_PAGE

/-- How one `get_jobs` task resolves, as seen by `asyncio.gather(...,
return_exceptions=True)` in `scrape`: a job list, a `CancelledError`, a
`LinkedInTooManyRetriesError`, or some other exception. -/
inductive FetchOutcome
  | ok (jobs : List Job)
  | cancelled
  | tooManyRetries
  | fatal (msg : String)
deriving DecidableEq, Repr

/-- Errors that can escape `scrape`. -/
inductive ScrapeErr
  | tooManyRetries
  | fatal (msg : String)
deriving DecidableEq, Repr

/-- The result loop of `scrape` over the gathered per-task outcomes, in task
creation order: a `CancelledError` is skipped, any other exception is
re-raised at once, and job lists are concatenated. -/
def aggregate : List FetchOutcome → Except ScrapeErr (List Job)
  | [] => Except.ok []
  | FetchOutcome.cancelled :: rest => aggregate rest
  | FetchOutcome.tooManyRetries :: _ => Except.error ScrapeErr.tooManyRetries
  | FetchOutcome.fatal m :: _ => Except.error (ScrapeErr.fatal m)
  | FetchOutcome.ok js :: rest =>
    match aggregate rest with
    | Except.ok acc => Except.ok (js ++ acc)
    | Except.error e => Except.error e

/-- `scrape` without detail enrichment, given the outcome each scheduled
offset's task resolved to: `asyncio.gather` yields the outcomes in task
creation order (ascending `start`), and the result loop folds them. -/
def scrapeListings (inputLimit : Nat) (outcome : Nat → FetchOutcome) :
    Except ScrapeErr (List Job) :=
  aggregate ((scheduledStarts inputLimit).map outcome)

/-! ## Fetch-attempt classification and the retry loops
(`LinkedInScraper.get_jobs` / `get_job_details`) -/

/-- What one listing-fetch attempt inside `get_jobs` amounts to, after
`raise_for_status` and `parse_jobs`: a parsed job list, an `HTTPStatusError`
(raised exactly for 4xx/5xx status codes), a connect/read timeout, or any
other exception (e.g. a `LinkedInError` escaping `parse_job`). -/
inductive Attempt
  | pageOk (jobs : List Job)
  | httpStatusError (code : Nat)
  | connectTimeout
  | readTimeout
  | otherError (msg : String)
deriving DecidableEq, Repr

/-- How `get_jobs` reacts to one attempt. -/
inductive Classification
  | success
  | retryable
  | fatal
deriving DecidableEq, Repr

/-- The `try/except` ladder of `get_jobs`: `HTTPStatusError` (any 4xx or 5xx,
since `raise_for_status` raises for exactly those), `ConnectTimeout` and
`TimeoutException` are caught and retried after a delay; every other
exception is re-raised immediately; otherwise the attempt succeeded. -/
def classifyAttempt : Attempt → Classification
  | Attempt.pageOk _ => Classification.success
  | Attempt.httpStatusError _ => Classification.retryable
  | Attempt.connectTimeout => Classification.retryable
  | Attempt.readTimeout => Classification.retryable
  | Attempt.otherError _ => Classification.fatal

/-- How one unit of work (`get_jobs` for one offset) terminates. -/
inductive UnitResult
  | ok (jobs : List Job)
  | fatalError
  | tooManyRetries
deriving DecidableEq, Repr

/-- The retry loop of `get_jobs`: attempts are numbered `retry = 1, 2, …`;
a successful attempt returns its jobs, a retryable one sleeps and goes round
again, a fatal one re-raises, and falling off the loop raises
`LinkedInTooManyRetriesError`. `fuel` counts the remaining iterations. -/
def retryLoop (att : Nat → Attempt) : Nat → Nat → UnitResult
  | _, 0 => UnitResult.tooManyRetries
  | retry, fuel + 1 =>
    match att retry with
    | Attempt.pageOk jobs => UnitResult.ok jobs
    | Attempt.otherError _ => UnitResult.fatalError
    | _ => retryLoop att (retry + 1) fuel

/-- `get_jobs` for one offset, as a function of its attempt sequence. -/
def get_jobs (att : Nat → Attempt) : UnitResult :=
  retryLoop att 1 MAX_RETRIES

/-! ## Detail enrichment (`LinkedInScraper.fill_jobs_details` /
`get_job_details`) -/

/-- What one detail-fetch attempt inside `get_job_details` amounts to. Unlike
the listing loop, `LinkedInBadPageError` (missing description block) is also
caught and retried. -/
inductive DetailAttempt
  | detailsOk (d : JobDetails)
  | httpStatusError (code : Nat)
  | connectTimeout
  | readTimeout
  | badPage
  | otherError (msg : String)
deriving DecidableEq, Repr

/-- The `try/except` ladder of `get_job_details`. -/
def classifyDetailAttempt : DetailAttempt → Classification
  | DetailAttempt.detailsOk _ => Classification.success
  | DetailAttempt.httpStatusError _ => Classification.retryable
  | DetailAttempt.connectTimeout => Classification.retryable
  | DetailAttempt.readTimeout => Classification.retryable
  | DetailAttempt.badPage => Classification.retryable
  | DetailAttempt.otherError _ => Classification.fatal

/-- How `get_job_details` terminates for one record. -/
inductive DetailOutcome
  | ok (d : JobDetails)
  | tooManyRetries
  | fatal (msg : String)
deriving DecidableEq, Repr

/-- The retry loop of `get_job_details`, with the same shape as `get_jobs`. -/
def detailRetryLoop (att : Nat → DetailAttempt) : Nat → Nat → DetailOutcome
  | _, 0 => DetailOutcome.tooManyRetries
  | retry, fuel + 1 =>
    match att retry with
    | DetailAttempt.detailsOk d => DetailOutcome.ok d
    | DetailAttempt.otherError m => DetailOutcome.fatal m
    | _ => detailRetryLoop att (retry + 1) fuel

/-- `get_job_details` for one record, as a function of its attempt sequence.
On success it assigns `job.details = job_details` (modelled in
`applyDetails`). -/
def get_job_details (att : Nat → DetailAttempt) : DetailOutcome :=
  detailRetryLoop att 1 MAX_RETRIES

/-- The final state of the job list after all `get_job_details` tasks have
run: a task that succeeded assigned `job.details`; one that raised left the
record untouched. -/
def applyDetails (outcome : Job → DetailOutcome) (jobs : List Job) : List Job :=
  jobs.map (fun j =>
    match outcome j with
    | DetailOutcome.ok d => { j with details := some d }
    | _ => j)

/-- The first task error (in record order) among the gathered
`get_job_details` tasks, if any. -/
def firstDetailError (outcome : Job → DetailOutcome) : List Job → Option ScrapeErr
  | [] => none
  | j :: rest =>
    match outcome j with
    | DetailOutcome.ok _ => firstDetailError outcome rest
    | DetailOutcome.tooManyRetries => some ScrapeErr.tooManyRetries
    | DetailOutcome.fatal m => some (ScrapeErr.fatal m)

/-- `fill_jobs_details`: `asyncio.gather` *without* `return_exceptions`, so
any task error propagates out of the `await` and the function raises instead
of returning; when every task succeeds it returns the very list it was
given, with the details assigned in place. -/
def fill_jobs_details (outcome : Job → DetailOutcome) (jobs : List Job) :
    Except ScrapeErr (List Job) :=
  match firstDetailError outcome jobs with
  | some e => Except.error e
  | none => Except.ok (applyDetails outcome jobs)

/-! ## The early-termination controller (`get_jobs` result block under
`self.__lock`, plus `scrape`'s task bookkeeping)

`scrape` creates one task per scheduled `start`, records each task's `start`,
and initializes `min_starts_without_results` to the limit. When a task's
fetch succeeds, the lock-guarded block checks `not jobs and start <
min_starts_without_results`; if so it lowers the minimum to `start` and
cancels every task that is neither done nor already cancelled and whose
`start` is greater. We model the per-query state as the current minimum plus
the task list in creation order, and a run as a fold over completion events
`(start, jobs)`; an event for a task that is no longer running (cancelled or
already done) has no effect. -/

/-- Status of one scheduled task. -/
inductive TaskStatus
  | running
  | done (jobs : List Job)
  | cancelled
deriving DecidableEq, Repr

/-- Controller state for one `scraper_input`. -/
structure CtrlState where
  minEmpty : Nat
  tasks : List (Nat × TaskStatus)
deriving DecidableEq, Repr

/-- Status lookup by offset. -/
def lookupStatus (s : CtrlState) (o : Nat) : Option TaskStatus :=
  s.tasks.lookup o

/-- Initial state: `min_starts_without_results = limit` and one running task
per scheduled start. -/
def initCtrl (inputLimit : Nat) : CtrlState :=
  { minEmpty := min inputLimit START_LIMIT,
    tasks := (scheduledStarts inputLimit).map (fun o => (o, TaskStatus.running)) }

/-- One completion event `(o, jobs)`: if task `o` is still running it becomes
done with `jobs`, and — exactly when `jobs` is empty and `o` is below the
recorded minimum — the minimum drops to `o` and every other still-running
task with offset above `o` is cancelled. -/
def stepCtrl (s : CtrlState) (e : Nat × List Job) : CtrlState :=
  if lookupStatus s e.1 = some TaskStatus.running then
    if e.2 = [] ∧ e.1 < s.minEmpty then
      { minEmpty := e.1,
        tasks := s.tasks.map (fun p =>
          if p.1 = e.1 then (p.1, TaskStatus.done e.2)
          else if p.2 = TaskStatus.running ∧ e.1 < p.1 then
            (p.1, TaskStatus.cancelled)
          else p) }
    else
      { minEmpty := s.minEmpty,
        tasks := s.tasks.map (fun p =>
          if p.1 = e.1 then (p.1, TaskStatus.done e.2) else p) }
  else s

/-- A whole controller run: the initial state folded over a completion-event
history. -/
def runCtrl (inputLimit : Nat) (events : List (Nat × List Job)) : CtrlState :=
  events.foldl stepCtrl (initCtrl inputLimit)

/-- `asyncio.gather` has returned: no task is still running. -/
def noRunning (s : CtrlState) : Prop :=
  ∀ p ∈ s.tasks, p.2 ≠ TaskStatus.running

instance (s : CtrlState) : Decidable (noRunning s) :=
  List.decidableBAll _ s.tasks

/-- The outcome `scrape`'s result loop sees for a resolved task. -/
def statusOutcome : TaskStatus → Option FetchOutcome
  | TaskStatus.running => none
  | TaskStatus.done js => some (FetchOutcome.ok js)
  | TaskStatus.cancelled => some FetchOutcome.cancelled

/-- The records a final controller state contributes, in task creation
order: done tasks contribute their jobs, cancelled tasks contribute
nothing. -/
def collect (s : CtrlState) : List Job :=
  s.tasks.flatMap (fun p =>
    match p.2 with
    | TaskStatus.done js => js
    | _ => [])

/-- The outcome list `asyncio.gather` hands back once every task has
resolved, in task creation order (`none` while some task is unresolved). -/
def finalOutcomes : List (Nat × TaskStatus) → Option (List FetchOutcome)
  | [] => some []
  | p :: rest =>
    match statusOutcome p.2, finalOutcomes rest with
    | some o, some os => some (o :: os)
    | _, _ => none

/-- The records one offset contributes to the final result: its jobs when its
task resolved to a job list, nothing otherwise. -/
def recordsOf (outcome : Nat → FetchOutcome) (s : Nat) : List Job :=
  match outcome s with
  | FetchOutcome.ok js => js
  | _ => []

/-! ## Concrete inputs used by witnesses and counterexamples -/

/-- A minimal concrete record. -/
def mkJob (t l : String) : Job :=
  { title := t, link := l,
    location := ⟨Country.WORLDWIDE, none, none⟩, company := ⟨t, l⟩ }

/-- Offset outcomes with one exhausted offset: offset 0 succeeded with one
record, every other offset exhausted its retries. -/
def cexOutcomeC1 (s : Nat) : FetchOutcome :=
  if s = 0 then FetchOutcome.ok [mkJob "a" "https://www.linkedin.com/jobs/view/1"]
  else FetchOutcome.tooManyRetries

/-- A concrete detail payload. -/
def someDetails : JobDetails :=
  { description := some "great job" }

/-- Detail outcomes for the C2 counterexample: the record linked at
`.../view/20` succeeds, the one at `.../view/21` exhausts its retries. -/
def cexDetailOutcomeC2 (j : Job) : DetailOutcome :=
  if j.link = "https://www.linkedin.com/jobs/view/21" then
    DetailOutcome.tooManyRetries
  else DetailOutcome.ok someDetails

/-- C2 counterexample batch. -/
def cexJobsC2 : List Job :=
  [mkJob "x" "https://www.linkedin.com/jobs/view/20",
   mkJob "y" "https://www.linkedin.com/jobs/view/21"]

/-- Listing fragment whose location text is an unknown country alias. -/
def cexRawC7 : RawJob :=
  { title_section := some ⟨"Dev", some "https://it.linkedin.com/jobs/view/dev-at-acme-99?refId=z"⟩,
    company_subtitle := some (some ⟨"ACME", some "https://linkedin.com/company/acme"⟩),
    location_section := some "fooland" }

/-- The record `parse_job` produces for `cexRawC7`: the unknown alias is
swallowed and the country silently defaults to `WORLDWIDE`. -/
def cexJobC7 : Job :=
  { title := "dev", link := "https://www.linkedin.com/jobs/view/99",
    location := ⟨Country.WORLDWIDE, some "fooland", none⟩,
    company := ⟨"acme", "https://linkedin.com/company/acme"⟩ }

/-- Two records sharing a link but differing in title. -/
def cexJob1C8 : Job :=
  { title := "engineer", link := "https://www.linkedin.com/jobs/view/42",
    location := ⟨Country.ITALY, none, none⟩,
    company := ⟨"acme", "https://linkedin.com/company/acme"⟩ }

/-- Same link as `cexJob1C8`, different title. -/
def cexJob2C8 : Job :=
  { cexJob1C8 with title := "senior engineer" }

/-- Attempt sequence for the C6 counterexample: a plain 404 on the first
attempt, success on the second. -/
def cexAttemptsC6 (k : Nat) : Attempt :=
  if k = 1 then Attempt.httpStatusError 404 else Attempt.pageOk []

/-- Witness job for C4. -/
def jobC4a : Job := mkJob "c4" "https://www.linkedin.com/jobs/view/41"

/-- Witness outcome function for C4: offset 0 succeeds with one record, the
other offsets are cancelled. -/
def outcomeC4 (s : Nat) : FetchOutcome :=
  if s = 0 then FetchOutcome.ok [jobC4a] else FetchOutcome.cancelled

/-- Witness jobs for C3. -/
def jobC3a : Job := mkJob "c3a" "https://www.linkedin.com/jobs/view/31"

/-- Second witness job for C3. -/
def jobC3b : Job := mkJob "c3b" "https://www.linkedin.com/jobs/view/32"

/-- Witness event history for C3: offset 50 comes back empty first (cancelling
75), then offsets 0 and 25 complete with one record each. -/
def eventsC3 : List (Nat × List Job) :=
  [(50, []), (0, [jobC3a]), (25, [jobC3b])]

/-- Witness job for C9. -/
def jobC9 : Job := mkJob "c9" "https://www.linkedin.com/jobs/view/91"

/-- Witness detail outcome for C9: every fetch succeeds. -/
def outcomeC9 (_ : Job) : DetailOutcome :=
  DetailOutcome.ok someDetails

/-- Witness fragment for C10. -/
def rawC10 : RawJob :=
  { title_section :=
      some ⟨" Data Engineer ", some "https://uk.linkedin.com/jobs/view/data-engineer-at-acme-777?trk=guest"⟩,
    company_subtitle := some (some ⟨" ACME ", some "https://linkedin.com/company/acme"⟩),
    location_section := some "London, England, United Kingdom" }

/-- The record `parse_job` produces for `rawC10`. -/
def jobC10 : Job :=
  { title := "data engineer", link := "https://www.linkedin.com/jobs/view/777",
    location := ⟨Country.UK, some "london", some "england"⟩,
    company := ⟨"acme", "https://linkedin.com/company/acme"⟩ }

/-! # Theorems -/

/-- Page-count arithmetic for `range(0, m, 25)`. -/
theorem lt_pages_iff (m i : Nat) : i < (m + 24) / 25 ↔ 25 * i < m := by
  rw [Nat.lt_iff_add_one_le, Nat.le_div_iff_mul_le (by norm_num : (0:Nat) < 25)]
  omega

/-- Membership in the scheduled offsets. -/
theorem mem_scheduledStarts (L o : Nat) :
    o ∈ scheduledStarts L ↔ o % 25 = 0 ∧ o < min L 1000 := by
  unfold scheduledStarts START_LIMIT RESULTS_PER_PAGE
  rw [List.mem_range']
  constructor
  · rintro ⟨i, hi, rfl⟩
    rw [show (25:Nat) - 1 = 24 from rfl, lt_pages_iff] at hi
    omega
  · rintro ⟨hmod, hlt⟩
    refine ⟨o / 25, ?_, by omega⟩
    rw [show (25:Nat) - 1 = 24 from rfl, lt_pages_iff]
    omega

/-- Claim C5: for every result limit `L`, the controller schedules exactly one
listing-fetch task per offset in the arithmetic sequence `0, RESULTS_PER_PAGE,
2·RESULTS_PER_PAGE, …` of offsets strictly below `min L START_LIMIT`, and no
others; every scheduled offset is a page multiple below that bound. -/
theorem claim_c5_scheduled_offsets (L : Nat) :
    (scheduledStarts L).Nodup ∧
      ∀ o, o ∈ scheduledStarts L ↔
        (∃ k, o = RESULTS_PER_PAGE * k) ∧ o < min L START_LIMIT := by
  constructor
  · unfold scheduledStarts
    exact List.nodup_range' 0 _ 25 (by norm_num)
  · intro o
    rw [mem_scheduledStarts]
    unfold RESULTS_PER_PAGE START_LIMIT
    constructor
    · rintro ⟨hmod, hlt⟩
      exact ⟨⟨o / 25, by omega⟩, hlt⟩
    · rintro ⟨⟨k, rfl⟩, hlt⟩
      exact ⟨by omega, hlt⟩

/-- Witness for C5 at a concrete limit. -/
theorem claim_c5_scheduled_offsets_witness :
    (scheduledStarts 100).Nodup ∧ 50 ∈ scheduledStarts 100 := by
  have h := claim_c5_scheduled_offsets 100
  exact ⟨h.1, (h.2 50).mpr ⟨⟨2, rfl⟩, by decide⟩⟩

/-- A retryable classification leaves the loop running: the retry loop with
one unit of fuel consumed moves to the next attempt. -/
theorem retryLoop_all_retryable (att : Nat → Attempt) :
    ∀ (fuel r : Nat),
      (∀ k, r ≤ k → k < r + fuel → classifyAttempt (att k) = Classification.retryable) →
      retryLoop att r fuel = UnitResult.tooManyRetries := by
  intro fuel
  induction fuel with
  | zero => intro r _; rfl
  | succ n ih =>
    intro r h
    have hr : classifyAttempt (att r) = Classification.retryable :=
      h r (Nat.le_refl r) (by omega)
    cases hAtt : att r with
    | pageOk jobs => rw [hAtt] at hr; simp [classifyAttempt] at hr
    | otherError m => rw [hAtt] at hr; simp [classifyAttempt] at hr
    | httpStatusError code =>
      have step : retryLoop att r (n + 1) = retryLoop att (r + 1) n := by
        simp [retryLoop, hAtt]
      rw [step]
      exact ih (r + 1) (fun k hk1 hk2 => h k (by omega) (by omega))
    | connectTimeout =>
      have step : retryLoop att r (n + 1) = retryLoop att (r + 1) n := by
        simp [retryLoop, hAtt]
      rw [step]
      exact ih (r + 1) (fun k hk1 hk2 => h k (by omega) (by omega))
    | readTimeout =>
      have step : retryLoop att r (n + 1) = retryLoop att (r + 1) n := by
        simp [retryLoop, hAtt]
      rw [step]
      exact ih (r + 1) (fun k hk1 hk2 => h k (by omega) (by omega))

/-- A fatal attempt terminates the loop at once, whatever fuel remains. -/
theorem retryLoop_fatal (att : Nat → Attempt) (r fuel : Nat)
    (h : classifyAttempt (att r) = Classification.fatal) :
    retryLoop att r (fuel + 1) = UnitResult.fatalError := by
  cases hAtt : att r with
  | otherError m => simp [retryLoop, hAtt]
  | pageOk jobs => rw [hAtt] at h; simp [classifyAttempt] at h
  | httpStatusError code => rw [hAtt] at h; simp [classifyAttempt] at h
  | connectTimeout => rw [hAtt] at h; simp [classifyAttempt] at h
  | readTimeout => rw [hAtt] at h; simp [classifyAttempt] at h

/-- Any non-cancelled exception among the gathered outcomes makes the result
loop of `scrape` re-raise. -/
theorem aggregate_error_of_mem :
    ∀ l : List FetchOutcome, FetchOutcome.tooManyRetries ∈ l →
      ∃ e, aggregate l = Except.error e := by
  intro l
  induction l with
  | nil => intro h; exact absurd h (List.not_mem_nil _)
  | cons o rest ih =>
    intro h
    cases o with
    | ok js =>
      have hrest : FetchOutcome.tooManyRetries ∈ rest := by
        rcases List.mem_cons.mp h with h1 | h1
        · exact absurd h1 (by simp)
        · exact h1
      obtain ⟨e, he⟩ := ih hrest
      exact ⟨e, by simp [aggregate, he]⟩
    | cancelled =>
      have hrest : FetchOutcome.tooManyRetries ∈ rest := by
        rcases List.mem_cons.mp h with h1 | h1
        · exact absurd h1 (by simp)
        · exact h1
      obtain ⟨e, he⟩ := ih hrest
      exact ⟨e, by simp [aggregate, he]⟩
    | tooManyRetries => exact ⟨ScrapeErr.tooManyRetries, rfl⟩
    | fatal m => exact ⟨ScrapeErr.fatal m, rfl⟩

/-- Claim C1 counterexample: with limit 50 the scheduled offsets are 0 and
25; offset 0 succeeds with one record while offset 25 exhausts its retries,
and `scrape` re-raises the `LinkedInTooManyRetriesError` instead of
completing with offset 0's records. -/
theorem claim_c1_counterexample :
    scrapeListings 50 cexOutcomeC1 = Except.error ScrapeErr.tooManyRetries ∧
      cexOutcomeC1 0 =
        FetchOutcome.ok [mkJob "a" "https://www.linkedin.com/jobs/view/1"] ∧
      cexOutcomeC1 25 = FetchOutcome.tooManyRetries :=
  ⟨rfl, rfl, rfl⟩

/-- Claim C1 amended: if the listing fetch for an offset fails with a
retryable failure on every one of its `MAX_RETRIES` attempts, `get_jobs`
raises `TooManyRetries` for that offset — and `scrape` then re-raises it, so
the whole batch aborts with an error instead of returning the other offsets'
records (only cancelled offsets are skipped by the result loop). -/
theorem claim_c1_amended (att : Nat → Attempt) (outcomes : List FetchOutcome)
    (h1 : ∀ k, 1 ≤ k → k ≤ MAX_RETRIES →
      classifyAttempt (att k) = Classification.retryable)
    (h2 : FetchOutcome.tooManyRetries ∈ outcomes) :
    get_jobs att = UnitResult.tooManyRetries ∧
      ∃ e, aggregate outcomes = Except.error e := by
  constructor
  · unfold get_jobs
    exact retryLoop_all_retryable att MAX_RETRIES 1
      (fun k hk1 hk2 => h1 k hk1 (by unfold MAX_RETRIES; unfold MAX_RETRIES at hk2; omega))
  · exact aggregate_error_of_mem outcomes h2

/-- Witness for the amended C1 at a concrete attempt sequence and outcome
list. -/
theorem claim_c1_amended_witness :
    get_jobs (fun _ => Attempt.httpStatusError 429) = UnitResult.tooManyRetries ∧
      ∃ e, aggregate [FetchOutcome.tooManyRetries] = Except.error e :=
  claim_c1_amended (fun _ => Attempt.httpStatusError 429)
    [FetchOutcome.tooManyRetries] (fun _ _ _ => rfl) (by simp)

/-- Claim C6 counterexample: a plain HTTP 404 (a 4xx other than 429) is
caught by the same handler as rate limits — it is classified retryable, and
a 404 on the first attempt followed by a success is retried and succeeds
instead of being propagated immediately. -/
theorem claim_c6_counterexample :
    classifyAttempt (Attempt.httpStatusError 404) = Classification.retryable ∧
      classifyAttempt (Attempt.httpStatusError 404) ≠ Classification.fatal ∧
      get_jobs cexAttemptsC6 = UnitResult.ok [] :=
  ⟨rfl, by decide, rfl⟩

/-- Claim C6 amended: HTTP 429, every other 4xx and 5xx status (since
`raise_for_status` raises `HTTPStatusError` for all of them and the handler
catches it), connect-timeout and read-timeout are all retryable and trigger a
delayed retry, for listing fetches and detail fetches alike; only exceptions
outside that family (unexpected errors) are fatal and are propagated
immediately, regardless of remaining attempts. -/
theorem claim_c6_amended :
    (∀ c, 400 ≤ c → c < 600 →
      classifyAttempt (Attempt.httpStatusError c) = Classification.retryable)
    ∧ classifyAttempt Attempt.connectTimeout = Classification.retryable
    ∧ classifyAttempt Attempt.readTimeout = Classification.retryable
    ∧ (∀ m, classifyAttempt (Attempt.otherError m) = Classification.fatal)
    ∧ (∀ c, 400 ≤ c → c < 600 →
      classifyDetailAttempt (DetailAttempt.httpStatusError c) = Classification.retryable)
    ∧ classifyDetailAttempt DetailAttempt.connectTimeout = Classification.retryable
    ∧ classifyDetailAttempt DetailAttempt.readTimeout = Classification.retryable
    ∧ (∀ m, classifyDetailAttempt (DetailAttempt.otherError m) = Classification.fatal)
    ∧ (∀ att r fuel, classifyAttempt (att r) = Classification.fatal →
      retryLoop att r (fuel + 1) = UnitResult.fatalError)
    ∧ (∀ att, (∀ k, 1 ≤ k → k ≤ MAX_RETRIES →
        classifyAttempt (att k) = Classification.retryable) →
      get_jobs att = UnitResult.tooManyRetries) := by
  refine ⟨fun c _ _ => rfl, rfl, rfl, fun m => rfl, fun c _ _ => rfl, rfl, rfl,
    fun m => rfl, retryLoop_fatal, fun att h => ?_⟩
  unfold get_jobs
  exact retryLoop_all_retryable att MAX_RETRIES 1
    (fun k hk1 hk2 => h k hk1 (by unfold MAX_RETRIES; unfold MAX_RETRIES at hk2; omega))

/-- Witness for the amended C6 at concrete inputs. -/
theorem claim_c6_amended_witness :
    classifyAttempt (Attempt.httpStatusError 503) = Classification.retryable ∧
      classifyAttempt (Attempt.otherError "boom") = Classification.fatal ∧
      retryLoop (fun _ => Attempt.otherError "boom") 1 (4 + 1) = UnitResult.fatalError := by
  have h := claim_c6_amended
  exact ⟨h.1 503 (by norm_num) (by norm_num), h.2.2.2.1 "boom",
    h.2.2.2.2.2.2.2.2.1 (fun _ => Attempt.otherError "boom") 1 4 rfl⟩

/-- When every detail fetch succeeds, no gathered task raises. -/
theorem firstDetailError_none (outcome : Job → DetailOutcome) :
    ∀ jobs : List Job, (∀ j ∈ jobs, ∃ d, outcome j = DetailOutcome.ok d) →
      firstDetailError outcome jobs = none := by
  intro jobs
  induction jobs with
  | nil => intro _; rfl
  | cons j rest ih =>
    intro h
    obtain ⟨d, hd⟩ := h j (List.mem_cons_self _ _)
    have hrest := ih (fun x hx => h x (List.mem_cons_of_mem _ hx))
    simp [firstDetailError, hd, hrest]

/-- A detail fetch that exhausted its retries makes the gather raise. -/
theorem firstDetailError_some (outcome : Job → DetailOutcome) :
    ∀ jobs : List Job, (∃ j ∈ jobs, outcome j = DetailOutcome.tooManyRetries) →
      ∃ e, firstDetailError outcome jobs = some e := by
  intro jobs
  induction jobs with
  | nil => rintro ⟨j, hj, _⟩; exact absurd hj (List.not_mem_nil _)
  | cons j rest ih =>
    rintro ⟨x, hx, hxo⟩
    rcases List.mem_cons.mp hx with rfl | hx1
    · exact ⟨ScrapeErr.tooManyRetries, by simp [firstDetailError, hxo]⟩
    · cases ho : outcome j with
      | ok d =>
        obtain ⟨e, he⟩ := ih ⟨x, hx1, hxo⟩
        exact ⟨e, by simp [firstDetailError, ho, he]⟩
      | tooManyRetries => exact ⟨ScrapeErr.tooManyRetries, by simp [firstDetailError, ho]⟩
      | fatal m => exact ⟨ScrapeErr.fatal m, by simp [firstDetailError, ho]⟩

/-- Claim C2 counterexample: a batch of two records where the second record's
detail fetch exhausts its retry budget while the first succeeds;
`fill_jobs_details` raises the `LinkedInTooManyRetriesError` instead of
returning the batch. -/
theorem claim_c2_counterexample :
    fill_jobs_details cexDetailOutcomeC2 cexJobsC2 =
        Except.error ScrapeErr.tooManyRetries ∧
      cexDetailOutcomeC2 (mkJob "x" "https://www.linkedin.com/jobs/view/20") =
        DetailOutcome.ok someDetails :=
  ⟨rfl, rfl⟩

/-- Claim C2 amended: when detail enrichment is requested and one record's
detail fetch exhausts its retry budget, the error propagates out of the
gather and `fill_jobs_details` raises, so the batch is not returned; only
when every record's detail fetch succeeds does it return all the records,
each with its fetched `Details` attached. -/
theorem claim_c2_amended (outcome : Job → DetailOutcome) (jobs : List Job) :
    ((∃ j ∈ jobs, outcome j = DetailOutcome.tooManyRetries) →
        ∃ e, fill_jobs_details outcome jobs = Except.error e)
    ∧ ((∀ j ∈ jobs, ∃ d, outcome j = DetailOutcome.ok d) →
        fill_jobs_details outcome jobs = Except.ok (applyDetails outcome jobs)) := by
  constructor
  · intro h
    obtain ⟨e, he⟩ := firstDetailError_some outcome jobs h
    exact ⟨e, by simp [fill_jobs_details, he]⟩
  · intro h
    simp [fill_jobs_details, firstDetailError_none outcome jobs h]

/-- Witness for the amended C2 at a concrete batch. -/
theorem claim_c2_amended_witness :
    (∃ e, fill_jobs_details cexDetailOutcomeC2 cexJobsC2 = Except.error e) ∧
      fill_jobs_details outcomeC9 [jobC4a] =
        Except.ok (applyDetails outcomeC9 [jobC4a]) := by
  have h1 := (claim_c2_amended cexDetailOutcomeC2 cexJobsC2).1
    ⟨mkJob "y" "https://www.linkedin.com/jobs/view/21", by simp [cexJobsC2], rfl⟩
  have h2 := (claim_c2_amended outcomeC9 [jobC4a]).2
    (fun j _ => ⟨someDetails, rfl⟩)
  exact ⟨h1, h2⟩

/-- Claim C9: detail enrichment is a pure frame over `details`: the enriched
list has the same length, each record keeps its title, link, company and
location unchanged, a record whose fetch succeeded carries exactly the
fetched payload, one whose fetch exhausted retries keeps its previous
(absent) `details`, and whenever `fill_jobs_details` returns it returns
precisely the records it was given in that enriched state. -/
theorem claim_c9_details_frame (outcome : Job → DetailOutcome) (jobs : List Job) :
    (applyDetails outcome jobs).length = jobs.length
    ∧ (∀ k j j', jobs.get? k = some j →
        (applyDetails outcome jobs).get? k = some j' →
        j'.title = j.title ∧ j'.link = j.link ∧ j'.company = j.company ∧
          j'.location = j.location ∧
          (∀ d, outcome j = DetailOutcome.ok d → j'.details = some d) ∧
          (outcome j = DetailOutcome.tooManyRetries → j'.details = j.details))
    ∧ (∀ l, fill_jobs_details outcome jobs = Except.ok l →
        l = applyDetails outcome jobs) := by
  refine ⟨List.length_map _ _, ?_, ?_⟩
  · intro k j j' hj hj'
    rw [applyDetails, List.get?_map, hj] at hj'
    have hj'' := Option.some.inj hj'
    cases ho : outcome j with
    | ok d =>
      simp only [ho] at hj''
      subst hj''
      refine ⟨rfl, rfl, rfl, rfl, ?_, ?_⟩
      · intro d' hd'
        rw [DetailOutcome.ok.injEq] at hd'
        rw [hd']
      · intro hcon
        simp at hcon
    | tooManyRetries =>
      simp only [ho] at hj''
      subst hj''
      refine ⟨rfl, rfl, rfl, rfl, ?_, ?_⟩
      · intro d' hd'
        simp at hd'
      · intro _
        rfl
    | fatal m =>
      simp only [ho] at hj''
      subst hj''
      refine ⟨rfl, rfl, rfl, rfl, ?_, ?_⟩
      · intro d' hd'
        simp at hd'
      · intro hcon
        simp at hcon
  · intro l hl
    unfold fill_jobs_details at hl
    cases hf : firstDetailError outcome jobs with
    | some e => rw [hf] at hl; cases hl
    | none => rw [hf] at hl; exact (Except.ok.inj hl).symm

/-- Witness for C9 at a concrete record list and outcome. -/
theorem claim_c9_details_frame_witness :
    ({ jobC9 with details := some someDetails } : Job).title = jobC9.title ∧
      ({ jobC9 with details := some someDetails } : Job).details = some someDetails := by
  have h := (claim_c9_details_frame outcomeC9 [jobC9]).2.1 0 jobC9
    { jobC9 with details := some someDetails } rfl rfl
  exact ⟨h.1, h.2.2.2.2.1 someDetails rfl⟩

/-- When every gathered outcome is a job list or a cancellation, the result
loop returns the per-offset record lists concatenated in list order. -/
theorem aggregate_map_ok (outcome : Nat → FetchOutcome) :
    ∀ l : List Nat,
      (∀ s ∈ l, (∃ js, outcome s = FetchOutcome.ok js) ∨
        outcome s = FetchOutcome.cancelled) →
      aggregate (l.map outcome) = Except.ok (l.flatMap (recordsOf outcome)) := by
  intro l
  induction l with
  | nil => intro _; rfl
  | cons s rest ih =>
    intro h
    have hrest := ih (fun x hx => h x (List.mem_cons_of_mem _ hx))
    rcases h s (List.mem_cons_self _ _) with ⟨js, hjs⟩ | hc
    · simp [List.map_cons, List.flatMap_cons, aggregate, hjs, hrest, recordsOf]
    · simp [List.map_cons, List.flatMap_cons, aggregate, hc, hrest, recordsOf]

/-- `parse_jobs` success means a pointwise-parsed list of the same length in
the same order. -/
theorem parse_jobs_get? :
    ∀ (raws : List RawJob) (js : List Job), parse_jobs raws = Except.ok js →
      js.length = raws.length ∧
        ∀ k r j, raws.get? k = some r → js.get? k = some j →
          parse_job r = Except.ok j := by
  intro raws
  induction raws with
  | nil =>
    intro js h
    have hjs : js = [] := by
      simpa [parse_jobs] using (Except.ok.inj h).symm
    subst hjs
    exact ⟨rfl, fun k r j hr _ => by cases hr⟩
  | cons r rest ih =>
    intro js h
    unfold parse_jobs at h
    cases hr : parse_job r with
    | error e => rw [hr] at h; cases h
    | ok j0 =>
      rw [hr] at h
      cases hrest : parse_jobs rest with
      | error e => rw [hrest] at h; cases h
      | ok tail =>
        rw [hrest] at h
        have hjs := (Except.ok.inj h).symm
        subst hjs
        obtain ⟨hlen, hpt⟩ := ih tail hrest
        refine ⟨by simp [hlen], ?_⟩
        intro k x y hx hy
        cases k with
        | zero =>
          cases Option.some.inj hx
          cases Option.some.inj hy
          exact hr
        | succ n => exact hpt n x y hx hy

/-- Claim C4: for every query whose tasks each resolve to a record list or a
cancellation, the records `scrape` returns are the per-offset lists
concatenated by ascending originating offset (the scheduled offsets are
strictly increasing and `gather` yields results in task creation order,
whatever the completion order), and within one page `parse_jobs` keeps the
records in fragment order. -/
theorem claim_c4_record_order (L : Nat) (outcome : Nat → FetchOutcome)
    (h : ∀ s ∈ scheduledStarts L,
      (∃ js, outcome s = FetchOutcome.ok js) ∨
        outcome s = FetchOutcome.cancelled) :
    scrapeListings L outcome =
        Except.ok ((scheduledStarts L).flatMap (recordsOf outcome))
      ∧ List.Pairwise (· < ·) (scheduledStarts L)
      ∧ ∀ raws js, parse_jobs raws = Except.ok js →
          js.length = raws.length ∧
            ∀ k r j, raws.get? k = some r → js.get? k = some j →
              parse_job r = Except.ok j := by
  refine ⟨aggregate_map_ok outcome _ h, ?_, parse_jobs_get?⟩
  unfold scheduledStarts
  exact List.pairwise_lt_range' 0 _ 25 (by norm_num)

/-- Witness for C4 at a concrete limit and outcome assignment. -/
theorem claim_c4_record_order_witness :
    scrapeListings 60 outcomeC4 = Except.ok [jobC4a] := by
  have hyp : ∀ s ∈ scheduledStarts 60,
      (∃ js, outcomeC4 s = FetchOutcome.ok js) ∨
        outcomeC4 s = FetchOutcome.cancelled := by
    have hs : scheduledStarts 60 = [0, 25, 50] := rfl
    rw [hs]
    intro s hs'
    simp only [List.mem_cons, List.not_mem_nil, or_false] at hs'
    rcases hs' with rfl | rfl | rfl
    · exact Or.inl ⟨[jobC4a], rfl⟩
    · exact Or.inr rfl
    · exact Or.inr rfl
  exact (claim_c4_record_order 60 outcomeC4 hyp).1.trans (by rfl)

/-- Claim C8 counterexample: two records sharing the canonical link but with
different titles are *not* equal — pydantic equality compares every field,
`Job` overrides only `__hash__`. -/
theorem claim_c8_counterexample :
    cexJob1C8.link = cexJob2C8.link ∧ cexJob1C8.title ≠ cexJob2C8.title ∧
      Job.pyEq cexJob1C8 cexJob2C8 = false ∧ cexJob1C8 ≠ cexJob2C8 :=
  ⟨rfl, by decide, rfl, by decide⟩

/-- Claim C8 amended: `Job` equality is pydantic structural equality — two
records are equal exactly when all five fields agree, so sharing a link alone
does not make records equal; records with different links are unequal, and
only the hash key is derived from the link alone. -/
theorem claim_c8_amended (a b : Job) :
    (Job.pyEq a b = true ↔ a = b) ∧ (a = b → a.link = b.link) ∧
      Job.pyHashKey a = a.link := by
  refine ⟨?_, fun h => by rw [h], rfl⟩
  unfold Job.pyEq
  cases a with
  | mk ta la oa ca da =>
    cases b with
    | mk tb lb ob cb db =>
      simp [Job.mk.injEq, and_assoc]

/-- Witness for the amended C8 at concrete records. -/
theorem claim_c8_amended_witness :
    Job.pyEq cexJob1C8 cexJob1C8 = true ∧ Job.pyHashKey cexJob1C8 = cexJob1C8.link := by
  have h := claim_c8_amended cexJob1C8 cexJob1C8
  exact ⟨h.1.mpr rfl, h.2.2⟩

/-- The cut at the first `?` contains no `?`. -/
theorem not_mem_firstSegment_self (c : Char) (s : String) :
    c ∉ (firstSegment c s).data := by
  intro h
  have := List.mem_takeWhile_imp h
  simp at this

/-- Every character of the last separator segment occurs in the string. -/
theorem mem_of_mem_lastSegment (c x : Char) (s : String)
    (h : x ∈ (lastSegment c s).data) : x ∈ s.data := by
  unfold lastSegment at h
  have h1 : x ∈ s.data.reverse.takeWhile (fun y => decide (y ≠ c)) :=
    List.mem_reverse.mp h
  have h2 : x ∈ s.data.reverse := List.Sublist.mem h1 (List.takeWhile_sublist _)
  exact List.mem_reverse.mp h2

/-- The rebuilt job link never contains a query string. -/
theorem link_no_query (href : String) :
    '?' ∉ (LINKEDIN_JOB_URL ++ "/" ++ lastSegment '-' (firstSegment '?' href)).data := by
  intro h
  rw [String.data_append, String.data_append] at h
  rcases List.mem_append.mp h with h1 | h2
  · rcases List.mem_append.mp h1 with h3 | h4
    · revert h3; decide
    · revert h4; decide
  · exact not_mem_firstSegment_self '?' href
      (mem_of_mem_lastSegment '-' '?' (firstSegment '?' href) h2)

/-- Claim C10: every record produced by listing-page parsing has the link
`LINKEDIN_JOB_URL ++ "/" ++ id` where `id` is the last `-`-segment of the
scraped `href` cut at the first `?`; no returned link contains a `?`, and
both the title and the company name are the stripped, lowercased node
texts. -/
theorem claim_c10_link_form (raw : RawJob) (j : Job)
    (h : parse_job raw = Except.ok j) :
    ∃ ts href cs,
      raw.title_section = some ts ∧ ts.href = some href ∧
      raw.company_subtitle = some (some cs) ∧
      j.link = LINKEDIN_JOB_URL ++ "/" ++ lastSegment '-' (firstSegment '?' href) ∧
      '?' ∉ j.link.data ∧
      j.title = pyLower (pyStrip ts.text) ∧
      j.company.name = pyLower (pyStrip cs.text) := by
  unfold parse_job at h
  split at h
  next => cases h
  next ts hts =>
    split at h
    next => cases h
    next href hh =>
      split at h
      next => cases h
      next => cases h
      next cs hcs =>
        split at h
        next => cases h
        next chref hch =>
          split at h
          next => cases h
          next ltext hloc =>
            have hj := (Except.ok.inj h).symm
            subst hj
            exact ⟨ts, href, cs, hts, hh, hcs, rfl, link_no_query href,
              rfl, rfl⟩

/-- Witness for C10 at a concrete listing fragment. -/
theorem claim_c10_link_form_witness :
    parse_job rawC10 = Except.ok jobC10 ∧ '?' ∉ jobC10.link.data := by
  obtain ⟨ts, href, cs, _, hhref, _, _, hq, _, _⟩ :=
    claim_c10_link_form rawC10 jobC10 rfl
  exact ⟨rfl, hq⟩

/-- Claim C7 counterexample: "fooland" is in neither alias table, yet
`parse_job` succeeds on a fragment whose location is "fooland" — the
`ValueError` from `Country.from_alias` is caught inside `parse_job`, the
country silently defaults to `WORLDWIDE` and the unknown string is kept as
the city, so no data-quality error propagates out of listing parsing. -/
theorem claim_c7_counterexample :
    aliasToCountry "fooland" = none ∧
      parse_job cexRawC7 = Except.ok cexJobC7 ∧
      cexJobC7.location.country = Country.WORLDWIDE ∧
      cexJobC7.location.city = some "fooland" :=
  ⟨rfl, rfl, rfl, rfl⟩

/-- Claim C7 amended: the alias lookups themselves are total and strict —
every alias in either enumeration table resolves to its canonical member and
any unknown string raises `ValueError` — and the employment-type error does
propagate out of detail-page parsing; but listing parsing catches the
country error and silently falls back to `WORLDWIDE` with the string kept as
a city, rather than propagating it. -/
theorem claim_c7_amended :
    (∀ c ∈ Country.all, ∀ a ∈ Country.aliases c,
      Country.from_alias a = Except.ok c)
    ∧ (∀ e ∈ EmploymentType.all, ∀ a ∈ EmploymentType.aliases e,
      EmploymentType.from_alias a = Except.ok e)
    ∧ (∀ c : Country, c ∈ Country.all)
    ∧ (∀ e : EmploymentType, e ∈ EmploymentType.all)
    ∧ (∀ a, aliasToCountry a = none →
      ∃ m, Country.from_alias a = Except.error m)
    ∧ (∀ a, aliasToEmploymentType a = none →
      ∃ m, EmploymentType.from_alias a = Except.error m)
    ∧ (∀ d v,
      aliasToEmploymentType (pyDeleteChar ' ' (pyDeleteChar '-' (pyLower (pyStrip v)))) = none →
      ∃ m, parse_job_details ⟨some d, [("Employment type", v)]⟩ =
        Except.error (DetailParseErr.valueError m)) := by
  refine ⟨by decide, by decide, fun c => by cases c <;> decide,
    fun e => by cases e <;> decide, ?_, ?_, ?_⟩
  · intro a h
    unfold Country.from_alias
    rw [h]
    exact ⟨_, rfl⟩
  · intro a h
    unfold EmploymentType.from_alias
    rw [h]
    exact ⟨_, rfl⟩
  · intro d v h
    refine ⟨"employment_type not found; please open an issue", ?_⟩
    unfold parse_job_details
    simp only [List.foldlM]
    unfold applyCriteria
    rw [if_neg (by simp), if_pos rfl]
    unfold EmploymentType.from_alias
    rw [h]
    rfl

/-- Witness for the amended C7: a known alias on each table and an unknown
one. -/
theorem claim_c7_amended_witness :
    Country.from_alias "italy" = Except.ok Country.ITALY ∧
      EmploymentType.from_alias "contract" = Except.ok EmploymentType.SELFEMPLOYED ∧
      (∃ m, Country.from_alias "fooland" = Except.error m) := by
  have h := claim_c7_amended
  exact ⟨h.1 Country.ITALY (by decide) "italy" (by decide),
    h.2.1 EmploymentType.SELFEMPLOYED (by decide) "contract" (by decide),
    h.2.2.2.2.1 "fooland" rfl⟩

/-- One controller step preserves the invariant that every cancelled task's
offset lies strictly above the recorded minimum empty offset. -/
theorem stepCtrl_cancelled_lt (s : CtrlState) (e : Nat × List Job)
    (h : ∀ p ∈ s.tasks, p.2 = TaskStatus.cancelled → s.minEmpty < p.1) :
    ∀ p ∈ (stepCtrl s e).tasks, p.2 = TaskStatus.cancelled →
      (stepCtrl s e).minEmpty < p.1 := by
  intro p hp hpc
  unfold stepCtrl at hp ⊢
  by_cases h1 : lookupStatus s e.1 = some TaskStatus.running
  · rw [if_pos h1] at hp ⊢
    by_cases h2 : e.2 = [] ∧ e.1 < s.minEmpty
    · rw [if_pos h2] at hp ⊢
      simp only [List.mem_map] at hp
      obtain ⟨q, hq, hpq⟩ := hp
      show e.1 < p.1
      split_ifs at hpq with hq1 hq2
      · subst hpq; cases hpc
      · subst hpq; exact hq2.2
      · subst hpq; exact Nat.lt_trans h2.2 (h q hq hpc)
    · rw [if_neg h2] at hp ⊢
      simp only [List.mem_map] at hp
      obtain ⟨q, hq, hpq⟩ := hp
      show s.minEmpty < p.1
      split_ifs at hpq with hq1
      · subst hpq; cases hpc
      · subst hpq; exact h q hq hpc
  · rw [if_neg h1] at hp ⊢
    exact h p hp hpc

/-- The cancelled-above-minimum invariant is preserved along any event
history. -/
theorem foldl_cancelled_lt :
    ∀ (events : List (Nat × List Job)) (s : CtrlState),
      (∀ p ∈ s.tasks, p.2 = TaskStatus.cancelled → s.minEmpty < p.1) →
      ∀ p ∈ (events.foldl stepCtrl s).tasks, p.2 = TaskStatus.cancelled →
        (events.foldl stepCtrl s).minEmpty < p.1
  | [], _, h => h
  | e :: rest, s, h =>
    foldl_cancelled_lt rest (stepCtrl s e) (stepCtrl_cancelled_lt s e h)

/-- Initially no task is cancelled, so the invariant holds vacuously. -/
theorem initCtrl_cancelled_lt (L : Nat) :
    ∀ p ∈ (initCtrl L).tasks, p.2 = TaskStatus.cancelled →
      (initCtrl L).minEmpty < p.1 := by
  intro p hp hpc
  unfold initCtrl at hp
  simp only [List.mem_map] at hp
  obtain ⟨o, _, hpo⟩ := hp
  subst hpo
  cases hpc

/-- Once every task is resolved, the gathered outcome list exists and the
result loop of `scrape` accepts it without error, returning exactly the done
tasks' records in task order. -/
theorem finalOutcomes_aggregate :
    ∀ l : List (Nat × TaskStatus), (∀ p ∈ l, p.2 ≠ TaskStatus.running) →
      ∃ outs, finalOutcomes l = some outs ∧
        aggregate outs = Except.ok (l.flatMap (fun p =>
          match p.2 with
          | TaskStatus.done js => js
          | _ => [])) := by
  intro l
  induction l with
  | nil => intro _; exact ⟨[], rfl, rfl⟩
  | cons p rest ih =>
    intro h
    obtain ⟨outs, h1, h2⟩ := ih (fun x hx => h x (List.mem_cons_of_mem _ hx))
    have hp := h p (List.mem_cons_self _ _)
    cases hst : p.2 with
    | running => exact absurd hst hp
    | done js =>
      refine ⟨FetchOutcome.ok js :: outs, ?_, ?_⟩
      · simp [finalOutcomes, statusOutcome, hst, h1]
      · simp [aggregate, h2, List.flatMap_cons, hst]
    | cancelled =>
      refine ⟨FetchOutcome.cancelled :: outs, ?_, ?_⟩
      · simp [finalOutcomes, statusOutcome, hst, h1]
      · simp [aggregate, h2, List.flatMap_cons, hst]

/-- The lock-guarded block of `get_jobs`: a still-running task completing
with zero records below the recorded minimum lowers the minimum to its
offset and leaves no running task above that offset. -/
theorem stepCtrl_empty_cancels (s : CtrlState) (o : Nat)
    (h1 : lookupStatus s o = some TaskStatus.running) (h2 : o < s.minEmpty) :
    (stepCtrl s (o, [])).minEmpty = o ∧
      ∀ p ∈ (stepCtrl s (o, [])).tasks, o < p.1 → p.2 ≠ TaskStatus.running := by
  unfold stepCtrl
  rw [if_pos h1, if_pos (⟨rfl, h2⟩ : ([] : List Job) = [] ∧ o < s.minEmpty)]
  refine ⟨rfl, ?_⟩
  intro p hp hop
  simp only [List.mem_map] at hp
  obtain ⟨q, hq, hpq⟩ := hp
  split_ifs at hpq with hq1 hq2
  · subst hpq; intro hc; cases hc
  · subst hpq; intro hc; cases hc
  · subst hpq; intro hc; exact hq2 ⟨hc, hop⟩

/-- Claim C3: under the early-termination policy, a fetch completing with
zero records below the current minimum lowers the minimum to its offset and
cancels every still-running task with a greater offset; along any event
history every cancelled task sits strictly above the final minimum (so tasks
at or below it are never cancelled and, once all tasks are resolved, are
done), cancelled tasks contribute no records and are not surfaced as errors
by the result loop, and every done task's records are included in the
collected result. -/
theorem claim_c3_early_termination (L : Nat) (events : List (Nat × List Job))
    (hres : noRunning (runCtrl L events)) :
    (∀ s o, lookupStatus s o = some TaskStatus.running → o < s.minEmpty →
      (stepCtrl s (o, [])).minEmpty = o ∧
        ∀ p ∈ (stepCtrl s (o, [])).tasks, o < p.1 → p.2 ≠ TaskStatus.running)
    ∧ (∀ p ∈ (runCtrl L events).tasks, p.2 = TaskStatus.cancelled →
        (runCtrl L events).minEmpty < p.1)
    ∧ (∃ outs, finalOutcomes (runCtrl L events).tasks = some outs ∧
        aggregate outs = Except.ok (collect (runCtrl L events)))
    ∧ (∀ p ∈ (runCtrl L events).tasks, p.1 ≤ (runCtrl L events).minEmpty →
        ∃ js, p.2 = TaskStatus.done js)
    ∧ (∀ p ∈ (runCtrl L events).tasks, ∀ js, p.2 = TaskStatus.done js →
        ∀ j ∈ js, j ∈ collect (runCtrl L events)) := by
  have hinv : ∀ p ∈ (runCtrl L events).tasks, p.2 = TaskStatus.cancelled →
      (runCtrl L events).minEmpty < p.1 :=
    foldl_cancelled_lt events (initCtrl L) (initCtrl_cancelled_lt L)
  refine ⟨stepCtrl_empty_cancels, hinv, ?_, ?_, ?_⟩
  · exact finalOutcomes_aggregate (runCtrl L events).tasks hres
  · intro p hp hple
    cases hst : p.2 with
    | running => exact absurd hst (hres p hp)
    | done js => exact ⟨js, rfl⟩
    | cancelled => exact absurd hple (Nat.not_le.mpr (hinv p hp hst))
  · intro p hp js hjs j hj
    unfold collect
    rw [List.mem_flatMap]
    refine ⟨p, hp, ?_⟩
    rw [hjs]
    exact hj

/-- Witness for C3: four scheduled offsets, offset 50 comes back empty first
and cancels 75, offsets 0 and 25 then complete; the gathered outcomes
aggregate to exactly the two records, the cancellation surfacing as no
error. -/
theorem claim_c3_early_termination_witness :
    aggregate [FetchOutcome.ok [jobC3a], FetchOutcome.ok [jobC3b],
        FetchOutcome.ok [], FetchOutcome.cancelled] =
      Except.ok [jobC3a, jobC3b] := by
  obtain ⟨outs, h1, h2⟩ :=
    (claim_c3_early_termination 100 eventsC3 (by decide)).2.2.1
  have houts : outs = [FetchOutcome.ok [jobC3a], FetchOutcome.ok [jobC3b],
      FetchOutcome.ok [], FetchOutcome.cancelled] := by
    have hfo : finalOutcomes (runCtrl 100 eventsC3).tasks =
        some [FetchOutcome.ok [jobC3a], FetchOutcome.ok [jobC3b],
          FetchOutcome.ok [], FetchOutcome.cancelled] := rfl
    rw [hfo] at h1
    exact (Option.some.inj h1).symm
  have hcol : collect (runCtrl 100 eventsC3) = [jobC3a, jobC3b] := rfl
  rw [houts, hcol] at h2
  exact h2

end JobPilot
